import Mathlib

/-!
# Interface-combination validators of the joint trajectory controller

Shallow embedding of `validate_jtc_parameters.hpp`: the two parameter validators
`command_interface_type_combinations` and `state_interface_type_combinations`.

* a string-array parameter is a `List String`;
* `tl::expected<void, std::string>` is `Except String Unit`: `.ok ()` is the accepted
  result `{}`, `.error reason` is `tl::make_unexpected(reason)`;
* `interface_types.size()` is `List.length`.
-/

namespace joint_trajectory_controller

/-- Modelled from the spec: `rsl::contains`, a helper of the external `rsl` library that
is not part of the sources; the membership test of a value in a collection, written as
the linear scan for the first equal element. -/
def contains : List String → String → Bool
  | [], _ => false
  | x :: xs, value => x == value || contains xs value

/-- The validator of the command interface names (lines 28 to 99 of the header). -/
def command_interface_type_combinations (interface_types : List String) :
    Except String Unit :=
  let has_position := contains interface_types "position"
  let has_velocity := contains interface_types "velocity"
  let has_acceleration := contains interface_types "acceleration"
  let has_effort := contains interface_types "effort"
  if !has_position then
    .error "'position' command interface is required."
  else if has_acceleration then
    .error "'acceleration' command interface is not allowed in this controller configuration."
  else if interface_types.length == 1 then
    .ok ()
  else if interface_types.length == 2 then
    if (has_velocity && !has_effort) || (!has_velocity && has_effort) then
      .ok ()
    else
      .error "Invalid command interfaces. Allowed: [position], [position, velocity], [position, effort], [position, velocity, effort]."
  else if interface_types.length == 3 then
    if has_velocity && has_effort then
      .ok ()
    else
      .error "Invalid command interfaces. Allowed: [position], [position, velocity], [position, effort], [position, velocity, effort]."
  else
    .error "Invalid number of command interfaces. Allowed: 1, 2, or 3."

/-- The validator of the state interface names (lines 101 to 135 of the header). -/
def state_interface_type_combinations (interface_types : List String) :
    Except String Unit :=
  let has_position := contains interface_types "position"
  let has_velocity := contains interface_types "velocity"
  let has_effort := contains interface_types "effort"
  let has_acceleration := contains interface_types "acceleration"
  if has_acceleration then
    .error "'acceleration' state interface is not allowed. Required: [position, velocity, effort]."
  else if !has_position || !has_velocity || !has_effort then
    .error "State interfaces must contain exactly: [position, velocity, effort]."
  else if interface_types.length != 3 then
    .error "Invalid number of state interfaces. Required exactly 3: [position, velocity, effort]."
  else
    .ok ()

/-- The command validator with the exclusive-or test of its size-2 branch replaced by
the plain or `has_velocity || has_effort`, everything else as in
`command_interface_type_combinations`; the variant the source function is compared
with. -/
def command_interface_type_combinations_plain_or (interface_types : List String) :
    Except String Unit :=
  let has_position := contains interface_types "position"
  let has_velocity := contains interface_types "velocity"
  let has_acceleration := contains interface_types "acceleration"
  let has_effort := contains interface_types "effort"
  if !has_position then
    .error "'position' command interface is required."
  else if has_acceleration then
    .error "'acceleration' command interface is not allowed in this controller configuration."
  else if interface_types.length == 1 then
    .ok ()
  else if interface_types.length == 2 then
    if has_velocity || has_effort then
      .ok ()
    else
      .error "Invalid command interfaces. Allowed: [position], [position, velocity], [position, effort], [position, velocity, effort]."
  else if interface_types.length == 3 then
    if has_velocity && has_effort then
      .ok ()
    else
      .error "Invalid command interfaces. Allowed: [position], [position, velocity], [position, effort], [position, velocity, effort]."
  else
    .error "Invalid number of command interfaces. Allowed: 1, 2, or 3."

/-! ## Helper lemmas -/

theorem contains_iff_mem (c : List String) (value : String) :
    contains c value = true ↔ value ∈ c := by
  induction c with
  | nil => simp [contains]
  | cons x xs ih =>
    simp only [contains, Bool.or_eq_true, beq_iff_eq, ih, List.mem_cons]
    constructor
    · rintro (h | h)
      · exact Or.inl h.symm
      · exact Or.inr h
    · rintro (h | h)
      · exact Or.inl h.symm
      · exact Or.inr h

theorem contains_eq_false_iff (c : List String) (value : String) :
    contains c value = false ↔ value ∉ c := by
  rw [← contains_iff_mem]; simp

theorem contains_perm {l₁ l₂ : List String} (h : l₁.Perm l₂) (value : String) :
    contains l₁ value = contains l₂ value := by
  rw [Bool.eq_iff_iff, contains_iff_mem, contains_iff_mem]
  exact h.mem_iff

theorem command_perm {l₁ l₂ : List String} (h : l₁.Perm l₂) :
    command_interface_type_combinations l₁ = command_interface_type_combinations l₂ := by
  simp only [command_interface_type_combinations, contains_perm h, h.length_eq]

theorem state_perm {l₁ l₂ : List String} (h : l₁.Perm l₂) :
    state_interface_type_combinations l₁ = state_interface_type_combinations l₂ := by
  simp only [state_interface_type_combinations, contains_perm h, h.length_eq]

/-- A list that holds every entry of a duplicate-free list `t` and is no longer than `t`
is a reordering of `t`. -/
theorem perm_of_subset_of_length_le {t l : List String} (hd : t.Nodup) (hs : t ⊆ l)
    (hl : l.length ≤ t.length) : l.Perm t :=
  ((hd.subperm hs).perm_of_length_le hl).symm

/-- The command validator with its membership tests read as list membership. -/
theorem command_eq (l : List String) :
    command_interface_type_combinations l =
      if "position" ∉ l then
        .error "'position' command interface is required."
      else if "acceleration" ∈ l then
        .error "'acceleration' command interface is not allowed in this controller configuration."
      else if l.length = 1 then .ok ()
      else if l.length = 2 then
        if ("velocity" ∈ l ∧ "effort" ∉ l) ∨ ("velocity" ∉ l ∧ "effort" ∈ l) then .ok ()
        else .error "Invalid command interfaces. Allowed: [position], [position, velocity], [position, effort], [position, velocity, effort]."
      else if l.length = 3 then
        if "velocity" ∈ l ∧ "effort" ∈ l then .ok ()
        else .error "Invalid command interfaces. Allowed: [position], [position, velocity], [position, effort], [position, velocity, effort]."
      else .error "Invalid number of command interfaces. Allowed: 1, 2, or 3." := by
  simp only [command_interface_type_combinations, ← contains_iff_mem, Bool.not_eq_true,
    Bool.not_eq_true', Bool.or_eq_true, Bool.and_eq_true, beq_iff_eq]

/-- The state validator with its membership tests read as list membership. -/
theorem state_eq (l : List String) :
    state_interface_type_combinations l =
      if "acceleration" ∈ l then
        .error "'acceleration' state interface is not allowed. Required: [position, velocity, effort]."
      else if "position" ∉ l ∨ "velocity" ∉ l ∨ "effort" ∉ l then
        .error "State interfaces must contain exactly: [position, velocity, effort]."
      else if l.length ≠ 3 then
        .error "Invalid number of state interfaces. Required exactly 3: [position, velocity, effort]."
      else .ok () := by
  simp only [state_interface_type_combinations, ← contains_iff_mem, Bool.not_eq_true,
    Bool.not_eq_true', Bool.or_eq_true, bne_iff_ne, or_assoc]

/-- A list that holds every entry of a duplicate-free list is at least as long. -/
theorem length_le_of_nodup_subset {t l : List String} (hd : t.Nodup) (hs : t ⊆ l) :
    t.length ≤ l.length :=
  (hd.subperm hs).length_le

/-- A result that is not the accepted one is a rejection with some reason. -/
theorem exists_reason_of_ne_ok {r : Except String Unit} (h : r ≠ .ok ()) :
    ∃ reason, r = .error reason := by
  cases r with
  | error e => exact ⟨e, rfl⟩
  | ok u => exact absurd rfl h

/-- When the command validator accepts. -/
theorem command_ok_iff (l : List String) :
    command_interface_type_combinations l = .ok () ↔
      "position" ∈ l ∧ "acceleration" ∉ l ∧
        (l.length = 1 ∨
          (l.length = 2 ∧
            (("velocity" ∈ l ∧ "effort" ∉ l) ∨ ("velocity" ∉ l ∧ "effort" ∈ l))) ∨
          (l.length = 3 ∧ "velocity" ∈ l ∧ "effort" ∈ l)) := by
  rw [command_eq]
  by_cases hp : "position" ∈ l
  · rw [if_neg (not_not.mpr hp)]
    by_cases ha : "acceleration" ∈ l
    · rw [if_pos ha]
      constructor
      · intro h; exact nomatch h
      · rintro ⟨_, hna, _⟩; exact absurd ha hna
    · rw [if_neg ha]
      by_cases h1 : l.length = 1
      · rw [if_pos h1]
        exact ⟨fun _ => ⟨hp, ha, Or.inl h1⟩, fun _ => rfl⟩
      · rw [if_neg h1]
        by_cases h2 : l.length = 2
        · rw [if_pos h2]
          by_cases hx : ("velocity" ∈ l ∧ "effort" ∉ l) ∨ ("velocity" ∉ l ∧ "effort" ∈ l)
          · rw [if_pos hx]
            exact ⟨fun _ => ⟨hp, ha, Or.inr (Or.inl ⟨h2, hx⟩)⟩, fun _ => rfl⟩
          · rw [if_neg hx]
            constructor
            · intro h; exact nomatch h
            · rintro ⟨_, _, h | ⟨_, h⟩ | ⟨h, _⟩⟩
              · exact absurd h h1
              · exact absurd h hx
              · omega
        · rw [if_neg h2]
          by_cases h3 : l.length = 3
          · rw [if_pos h3]
            by_cases hb : "velocity" ∈ l ∧ "effort" ∈ l
            · rw [if_pos hb]
              exact ⟨fun _ => ⟨hp, ha, Or.inr (Or.inr ⟨h3, hb⟩)⟩, fun _ => rfl⟩
            · rw [if_neg hb]
              constructor
              · intro h; exact nomatch h
              · rintro ⟨_, _, h | ⟨h, _⟩ | ⟨_, h⟩⟩
                · exact absurd h h1
                · exact absurd h h2
                · exact absurd h hb
          · rw [if_neg h3]
            constructor
            · intro h; exact nomatch h
            · rintro ⟨_, _, h | ⟨h, _⟩ | ⟨h, _⟩⟩
              · exact absurd h h1
              · exact absurd h h2
              · exact absurd h h3
  · rw [if_pos hp]
    constructor
    · intro h; exact nomatch h
    · rintro ⟨h, _⟩; exact absurd h hp

/-- When the state validator accepts. -/
theorem state_ok_iff (l : List String) :
    state_interface_type_combinations l = .ok () ↔
      "acceleration" ∉ l ∧ "position" ∈ l ∧ "velocity" ∈ l ∧ "effort" ∈ l ∧
        l.length = 3 := by
  rw [state_eq]
  constructor
  · intro h
    split_ifs at h with ha hm hn
    push_neg at hm
    exact ⟨ha, hm.1, hm.2.1, hm.2.2, not_not.mp hn⟩
  · rintro ⟨ha, hp, hv, he, hn⟩
    simp [hn, hp, hv, he, ha]

/-! ## The claims -/

/-- C1: the command validator accepts a list exactly when it is a reordering of
`[position]`, `[position, velocity]`, `[position, effort]` or
`[position, velocity, effort]`; in particular a duplicate-free non-empty list over the
three names position, velocity, effort is accepted exactly when it holds position. -/
theorem command_accepts_iff_allowed_combination :
    (∀ l : List String,
      command_interface_type_combinations l = .ok () ↔
        (l.Perm ["position"] ∨ l.Perm ["position", "velocity"] ∨
          l.Perm ["position", "effort"] ∨ l.Perm ["position", "velocity", "effort"])) ∧
    (∀ l : List String, l.Nodup → l ≠ [] →
      (∀ x ∈ l, x = "position" ∨ x = "velocity" ∨ x = "effort") →
      (command_interface_type_combinations l = .ok () ↔ "position" ∈ l)) := by
  have part1 : ∀ l : List String,
      command_interface_type_combinations l = .ok () ↔
        (l.Perm ["position"] ∨ l.Perm ["position", "velocity"] ∨
          l.Perm ["position", "effort"] ∨ l.Perm ["position", "velocity", "effort"]) := by
    intro l
    constructor
    · intro h
      rw [command_eq] at h
      split_ifs at h with hp ha h1 h2 hx h3 hb
      · left
        exact perm_of_subset_of_length_le (by decide) (by simpa using hp)
          (by simp [h1])
      · rcases hx with ⟨hv, _⟩ | ⟨_, he⟩
        · right; left
          exact perm_of_subset_of_length_le (by decide)
            (by simpa using ⟨hp, hv⟩) (by simp [h2])
        · right; right; left
          exact perm_of_subset_of_length_le (by decide)
            (by simpa using ⟨hp, he⟩) (by simp [h2])
      · right; right; right
        exact perm_of_subset_of_length_le (by decide)
          (by simpa using ⟨hp, hb.1, hb.2⟩) (by simp [h3])
    · rintro (h | h | h | h) <;> rw [command_perm h] <;> rfl
  refine ⟨part1, ?_⟩
  intro l hd _ hsub
  constructor
  · intro h
    rw [command_eq] at h
    by_contra hp
    simp [hp] at h
  · intro hp
    rw [part1]
    by_cases hv : "velocity" ∈ l <;> by_cases he : "effort" ∈ l
    · right; right; right
      refine (List.perm_ext_iff_of_nodup hd (by decide)).2 fun a => ?_
      constructor
      · intro ha; simpa using hsub a ha
      · intro ha
        simp only [List.mem_cons, List.mem_singleton, List.not_mem_nil, or_false] at ha
        rcases ha with rfl | rfl | rfl <;> assumption
    · right; left
      refine (List.perm_ext_iff_of_nodup hd (by decide)).2 fun a => ?_
      constructor
      · intro ha
        rcases hsub a ha with rfl | rfl | rfl
        · simp
        · simp
        · exact absurd ha he
      · intro ha
        simp only [List.mem_cons, List.mem_singleton, List.not_mem_nil, or_false] at ha
        rcases ha with rfl | rfl <;> assumption
    · right; right; left
      refine (List.perm_ext_iff_of_nodup hd (by decide)).2 fun a => ?_
      constructor
      · intro ha
        rcases hsub a ha with rfl | rfl | rfl
        · simp
        · exact absurd ha hv
        · simp
      · intro ha
        simp only [List.mem_cons, List.mem_singleton, List.not_mem_nil, or_false] at ha
        rcases ha with rfl | rfl <;> assumption
    · left
      refine (List.perm_ext_iff_of_nodup hd (by decide)).2 fun a => ?_
      constructor
      · intro ha
        rcases hsub a ha with rfl | rfl | rfl
        · simp
        · exact absurd ha hv
        · exact absurd ha he
      · intro ha
        simp only [List.mem_singleton] at ha
        subst ha; assumption

/-- Witness of C1 at the ordering `[effort, position]` of the subset {position, effort}. -/
theorem command_accepts_iff_allowed_combination_witness :
    ["effort", "position"].Nodup ∧ ["effort", "position"] ≠ [] ∧
    (∀ x ∈ ["effort", "position"], x = "position" ∨ x = "velocity" ∨ x = "effort") ∧
    (command_interface_type_combinations ["effort", "position"] = .ok () ↔
      "position" ∈ ["effort", "position"]) :=
  ⟨by decide, by decide, by decide,
    command_accepts_iff_allowed_combination.2 ["effort", "position"]
      (by decide) (by decide) (by decide)⟩

/-- C2: the state validator accepts a list exactly when it has 3 entries, holds each of
position, velocity and effort and does not hold acceleration; equivalently exactly when
it is a reordering of `[position, velocity, effort]`. -/
theorem state_accepts_iff_exact_triple (l : List String) :
    (state_interface_type_combinations l = .ok () ↔
      (l.length = 3 ∧ "position" ∈ l ∧ "velocity" ∈ l ∧ "effort" ∈ l ∧
        "acceleration" ∉ l)) ∧
    (state_interface_type_combinations l = .ok () ↔
      l.Perm ["position", "velocity", "effort"]) := by
  have first : state_interface_type_combinations l = .ok () ↔
      (l.length = 3 ∧ "position" ∈ l ∧ "velocity" ∈ l ∧ "effort" ∈ l ∧
        "acceleration" ∉ l) := by
    rw [state_eq]
    constructor
    · intro h
      split_ifs at h with ha hm hn
      push_neg at hm
      exact ⟨not_not.mp hn, hm.1, hm.2.1, hm.2.2, ha⟩
    · rintro ⟨hn, hp, hv, he, ha⟩
      simp [hn, hp, hv, he, ha]
  refine ⟨first, ?_⟩
  constructor
  · intro h
    obtain ⟨hn, hp, hv, he, _⟩ := first.mp h
    exact perm_of_subset_of_length_le (by decide) (by simpa using ⟨hp, hv, he⟩)
      (by simp [hn])
  · intro h
    rw [state_perm h]
    rfl

/-- C3: a list without position is rejected by the command validator with the reason
"'position' command interface is required.". -/
theorem command_rejects_missing_position (l : List String) (h : "position" ∉ l) :
    command_interface_type_combinations l =
      .error "'position' command interface is required." := by
  rw [command_eq, if_pos h]

/-- Witness of C3 at `[velocity, effort, acceleration]`. -/
theorem command_rejects_missing_position_witness :
    "position" ∉ ["velocity", "effort", "acceleration"] ∧
    command_interface_type_combinations ["velocity", "effort", "acceleration"] =
      .error "'position' command interface is required." :=
  ⟨by decide, command_rejects_missing_position _ (by decide)⟩

/-- C4: a list that holds acceleration is rejected by the command validator, whatever
else it holds and whatever its length. -/
theorem command_rejects_acceleration (l : List String) (h : "acceleration" ∈ l) :
    ∃ reason, command_interface_type_combinations l = .error reason := by
  rw [command_eq]
  by_cases hp : "position" ∉ l
  · exact ⟨_, if_pos hp⟩
  · rw [if_neg hp, if_pos h]
    exact ⟨_, rfl⟩

/-- Witness of C4 at `[position, acceleration]`. -/
theorem command_rejects_acceleration_witness :
    "acceleration" ∈ ["position", "acceleration"] ∧
    ∃ reason, command_interface_type_combinations ["position", "acceleration"] =
      .error reason :=
  ⟨by decide, command_rejects_acceleration _ (by decide)⟩

/-- C5: a list that holds acceleration is rejected by the state validator, whatever
else it holds and whatever its length. -/
theorem state_rejects_acceleration (l : List String) (h : "acceleration" ∈ l) :
    ∃ reason, state_interface_type_combinations l = .error reason := by
  rw [state_eq, if_pos h]
  exact ⟨_, rfl⟩

/-- Witness of C5 at `[position, velocity, effort, acceleration]`. -/
theorem state_rejects_acceleration_witness :
    "acceleration" ∈ ["position", "velocity", "effort", "acceleration"] ∧
    ∃ reason,
      state_interface_type_combinations ["position", "velocity", "effort", "acceleration"] =
        .error reason :=
  ⟨by decide, state_rejects_acceleration _ (by decide)⟩

/-- C6: the rejection reason of the state validator follows the precedence
acceleration, then completeness, then count: (1) a list holding acceleration gets the
acceleration reason; (2) otherwise a list lacking position, velocity or effort gets the
"must contain exactly" reason; (3) otherwise a list whose length is not 3 gets the
"invalid number" reason. -/
theorem state_reason_precedence (l : List String) :
    ("acceleration" ∈ l →
      state_interface_type_combinations l =
        .error "'acceleration' state interface is not allowed. Required: [position, velocity, effort].") ∧
    ("acceleration" ∉ l → ("position" ∉ l ∨ "velocity" ∉ l ∨ "effort" ∉ l) →
      state_interface_type_combinations l =
        .error "State interfaces must contain exactly: [position, velocity, effort].") ∧
    ("acceleration" ∉ l → "position" ∈ l → "velocity" ∈ l → "effort" ∈ l →
      l.length ≠ 3 →
      state_interface_type_combinations l =
        .error "Invalid number of state interfaces. Required exactly 3: [position, velocity, effort].") := by
  refine ⟨fun ha => ?_, fun ha hm => ?_, fun ha hp hv he hn => ?_⟩
  · rw [state_eq, if_pos ha]
  · rw [state_eq, if_neg ha, if_pos hm]
  · rw [state_eq, if_neg ha, if_neg (by simp [hp, hv, he]), if_pos hn]

/-- Witness of C6: `[acceleration]` (a name missing and a wrong count as well),
`[position]` (a wrong count as well) and `[position, velocity, effort, effort]`. -/
theorem state_reason_precedence_witness :
    ("acceleration" ∈ ["acceleration"] ∧
      state_interface_type_combinations ["acceleration"] =
        .error "'acceleration' state interface is not allowed. Required: [position, velocity, effort].") ∧
    (("acceleration" ∉ ["position"] ∧
        ("position" ∉ ["position"] ∨ "velocity" ∉ ["position"] ∨ "effort" ∉ ["position"])) ∧
      state_interface_type_combinations ["position"] =
        .error "State interfaces must contain exactly: [position, velocity, effort].") ∧
    (("acceleration" ∉ ["position", "velocity", "effort", "effort"] ∧
        "position" ∈ ["position", "velocity", "effort", "effort"] ∧
        "velocity" ∈ ["position", "velocity", "effort", "effort"] ∧
        "effort" ∈ ["position", "velocity", "effort", "effort"] ∧
        ["position", "velocity", "effort", "effort"].length ≠ 3) ∧
      state_interface_type_combinations ["position", "velocity", "effort", "effort"] =
        .error "Invalid number of state interfaces. Required exactly 3: [position, velocity, effort].") :=
  ⟨⟨by decide, (state_reason_precedence ["acceleration"]).1 (by decide)⟩,
    ⟨⟨by decide, by decide⟩,
      (state_reason_precedence ["position"]).2.1 (by decide) (by decide)⟩,
    ⟨⟨by decide, by decide, by decide, by decide, by decide⟩,
      (state_reason_precedence ["position", "velocity", "effort", "effort"]).2.2
        (by decide) (by decide) (by decide) (by decide) (by decide)⟩⟩

/-- C7: a list whose length is not 1, 2 or 3 is rejected by the command validator,
whatever it holds. -/
theorem command_rejects_bad_length (l : List String)
    (h1 : l.length ≠ 1) (h2 : l.length ≠ 2) (h3 : l.length ≠ 3) :
    ∃ reason, command_interface_type_combinations l = .error reason := by
  rw [command_eq]
  by_cases hp : "position" ∉ l
  · exact ⟨_, if_pos hp⟩
  · by_cases ha : "acceleration" ∈ l
    · rw [if_neg hp, if_pos ha]
      exact ⟨_, rfl⟩
    · rw [if_neg hp, if_neg ha, if_neg h1, if_neg h2, if_neg h3]
      exact ⟨_, rfl⟩

/-- Witness of C7 at the four-entry list `[position, velocity, effort, position]`. -/
theorem command_rejects_bad_length_witness :
    (["position", "velocity", "effort", "position"].length ≠ 1 ∧
      ["position", "velocity", "effort", "position"].length ≠ 2 ∧
      ["position", "velocity", "effort", "position"].length ≠ 3) ∧
    ∃ reason,
      command_interface_type_combinations ["position", "velocity", "effort", "position"] =
        .error reason :=
  ⟨⟨by decide, by decide, by decide⟩,
    command_rejects_bad_length _ (by decide) (by decide) (by decide)⟩

/-- C8: both validators are order-independent: on two lists that are reorderings of
each other the command validator returns the same result (acceptance or the same
reason), and so does the state validator. -/
theorem validators_order_independent (l₁ l₂ : List String) (h : l₁.Perm l₂) :
    command_interface_type_combinations l₁ = command_interface_type_combinations l₂ ∧
    state_interface_type_combinations l₁ = state_interface_type_combinations l₂ :=
  ⟨command_perm h, state_perm h⟩

/-- Witness of C8 at `[effort, position, velocity]` and `[position, velocity, effort]`. -/
theorem validators_order_independent_witness :
    ["effort", "position", "velocity"].Perm ["position", "velocity", "effort"] ∧
    command_interface_type_combinations ["effort", "position", "velocity"] =
      command_interface_type_combinations ["position", "velocity", "effort"] ∧
    state_interface_type_combinations ["effort", "position", "velocity"] =
      state_interface_type_combinations ["position", "velocity", "effort"] :=
  ⟨by decide, validators_order_independent _ _ (by decide)⟩

/-- C9: every rejection of the command validator carries one of four reasons, each
tied to its cause; a rejected list of length 2 and a rejected list of length 3 that
both hold position and not acceleration get the same "Invalid command interfaces"
reason; and the four reason strings are pairwise different. -/
theorem command_reasons_distinct_except_shape :
    (∀ l₂ l₃ : List String, l₂.length = 2 → l₃.length = 3 →
      "position" ∈ l₂ → "acceleration" ∉ l₂ → "position" ∈ l₃ → "acceleration" ∉ l₃ →
      command_interface_type_combinations l₂ ≠ .ok () →
      command_interface_type_combinations l₃ ≠ .ok () →
      command_interface_type_combinations l₂ = command_interface_type_combinations l₃ ∧
      command_interface_type_combinations l₂ =
        .error "Invalid command interfaces. Allowed: [position], [position, velocity], [position, effort], [position, velocity, effort].") ∧
    (∀ (l : List String) (reason : String),
      command_interface_type_combinations l = .error reason →
      (reason = "'position' command interface is required." ∧ "position" ∉ l) ∨
      (reason = "'acceleration' command interface is not allowed in this controller configuration." ∧
        "position" ∈ l ∧ "acceleration" ∈ l) ∨
      (reason = "Invalid command interfaces. Allowed: [position], [position, velocity], [position, effort], [position, velocity, effort]." ∧
        "position" ∈ l ∧ "acceleration" ∉ l ∧ (l.length = 2 ∨ l.length = 3)) ∨
      (reason = "Invalid number of command interfaces. Allowed: 1, 2, or 3." ∧
        "position" ∈ l ∧ "acceleration" ∉ l ∧
        l.length ≠ 1 ∧ l.length ≠ 2 ∧ l.length ≠ 3)) ∧
    ["Invalid command interfaces. Allowed: [position], [position, velocity], [position, effort], [position, velocity, effort].",
      "'position' command interface is required.",
      "'acceleration' command interface is not allowed in this controller configuration.",
      "Invalid number of command interfaces. Allowed: 1, 2, or 3."].Pairwise (· ≠ ·) := by
  have shape : ∀ (n : Nat) (l : List String), n = 2 ∨ n = 3 → l.length = n →
      "position" ∈ l → "acceleration" ∉ l →
      command_interface_type_combinations l ≠ .ok () →
      command_interface_type_combinations l =
        .error "Invalid command interfaces. Allowed: [position], [position, velocity], [position, effort], [position, velocity, effort]." := by
    intro n l hn hl hp ha hr
    rw [command_eq] at hr ⊢
    rw [if_neg (not_not.mpr hp), if_neg ha] at hr ⊢
    rcases hn with rfl | rfl
    · rw [if_neg (by omega), if_pos hl] at hr ⊢
      split_ifs at hr ⊢ with hx
      · exact absurd rfl hr
      · rfl
    · rw [if_neg (by omega), if_neg (by omega), if_pos hl] at hr ⊢
      split_ifs at hr ⊢ with hx
      · exact absurd rfl hr
      · rfl
  refine ⟨?_, ?_, by decide⟩
  · intro l₂ l₃ h2 h3 hp2 ha2 hp3 ha3 hr2 hr3
    have e2 := shape 2 l₂ (Or.inl rfl) h2 hp2 ha2 hr2
    have e3 := shape 3 l₃ (Or.inr rfl) h3 hp3 ha3 hr3
    exact ⟨e2.trans e3.symm, e2⟩
  · intro l reason h
    rw [command_eq] at h
    by_cases hp : "position" ∈ l
    · rw [if_neg (not_not.mpr hp)] at h
      by_cases ha : "acceleration" ∈ l
      · rw [if_pos ha] at h
        right; left; exact ⟨(Except.error.inj h).symm, hp, ha⟩
      · rw [if_neg ha] at h
        by_cases h1 : l.length = 1
        · rw [if_pos h1] at h
          exact nomatch h
        · rw [if_neg h1] at h
          by_cases h2 : l.length = 2
          · rw [if_pos h2] at h
            split_ifs at h
            right; right; left
            exact ⟨(Except.error.inj h).symm, hp, ha, Or.inl h2⟩
          · rw [if_neg h2] at h
            by_cases h3 : l.length = 3
            · rw [if_pos h3] at h
              split_ifs at h
              right; right; left
              exact ⟨(Except.error.inj h).symm, hp, ha, Or.inr h3⟩
            · rw [if_neg h3] at h
              right; right; right
              exact ⟨(Except.error.inj h).symm, hp, ha, h1, h2, h3⟩
    · rw [if_pos hp] at h
      left; exact ⟨(Except.error.inj h).symm, hp⟩

/-- Witness of C9 at the rejected lists `[position, position]` and
`[position, velocity, velocity]`, and at the rejected list `[velocity]`. -/
theorem command_reasons_distinct_except_shape_witness :
    (command_interface_type_combinations ["position", "position"] =
        command_interface_type_combinations ["position", "velocity", "velocity"] ∧
      command_interface_type_combinations ["position", "position"] =
        .error "Invalid command interfaces. Allowed: [position], [position, velocity], [position, effort], [position, velocity, effort].") ∧
    "position" ∉ ["velocity"] :=
  ⟨command_reasons_distinct_except_shape.1 ["position", "position"]
      ["position", "velocity", "velocity"] rfl rfl (by decide) (by decide) (by decide)
      (by decide) (fun h => nomatch h) (fun h => nomatch h),
    ((command_reasons_distinct_except_shape.2.1 ["velocity"]
      "'position' command interface is required." rfl).resolve_right
        (by decide)).2⟩

/-- C11: in the command validator the position check comes before the acceleration
check: the reason is the acceleration-not-allowed string exactly when the list holds
both position and acceleration, and a list that holds acceleration but not position
gets the position-required reason. -/
theorem command_position_before_acceleration (l : List String) :
    (command_interface_type_combinations l =
        .error "'acceleration' command interface is not allowed in this controller configuration." ↔
      ("position" ∈ l ∧ "acceleration" ∈ l)) ∧
    ("acceleration" ∈ l → "position" ∉ l →
      command_interface_type_combinations l =
        .error "'position' command interface is required.") := by
  refine ⟨?_, fun _ hp => by rw [command_eq, if_pos hp]⟩
  rw [command_eq]
  by_cases hp : "position" ∈ l
  · rw [if_neg (not_not.mpr hp)]
    by_cases ha : "acceleration" ∈ l
    · rw [if_pos ha]
      exact ⟨fun _ => ⟨hp, ha⟩, fun _ => rfl⟩
    · rw [if_neg ha]
      constructor
      · intro h
        split_ifs at h <;> exact absurd (Except.error.inj h) (by decide)
      · rintro ⟨_, h⟩; exact absurd h ha
  · rw [if_pos hp]
    constructor
    · intro h; exact absurd (Except.error.inj h) (by decide)
    · rintro ⟨h, _⟩; exact absurd h hp

/-- Witness of C11 at `[acceleration, velocity]`, which holds acceleration but not
position. -/
theorem command_position_before_acceleration_witness :
    ("acceleration" ∈ ["acceleration", "velocity"] ∧
      "position" ∉ ["acceleration", "velocity"]) ∧
    command_interface_type_combinations ["acceleration", "velocity"] =
      .error "'position' command interface is required." :=
  ⟨⟨by decide, by decide⟩,
    (command_position_before_acceleration ["acceleration", "velocity"]).2
      (by decide) (by decide)⟩

/-- C12: for a list that holds position and not acceleration: with length 1 it is
accepted; with length 2 it is accepted exactly when exactly one of velocity and effort
is in it; with length 3 it is accepted exactly when both velocity and effort are in
it. -/
theorem command_size_switch (l : List String)
    (hp : "position" ∈ l) (ha : "acceleration" ∉ l) :
    (l.length = 1 → command_interface_type_combinations l = .ok ()) ∧
    (l.length = 2 →
      (command_interface_type_combinations l = .ok () ↔
        (("velocity" ∈ l ∧ "effort" ∉ l) ∨ ("velocity" ∉ l ∧ "effort" ∈ l)))) ∧
    (l.length = 3 →
      (command_interface_type_combinations l = .ok () ↔
        ("velocity" ∈ l ∧ "effort" ∈ l))) := by
  refine ⟨fun h1 => ?_, fun h2 => ?_, fun h3 => ?_⟩
  · exact (command_ok_iff l).2 ⟨hp, ha, Or.inl h1⟩
  · rw [command_ok_iff]
    constructor
    · rintro ⟨_, _, h | ⟨_, h⟩ | ⟨h, _⟩⟩
      · omega
      · exact h
      · omega
    · intro hx
      exact ⟨hp, ha, Or.inr (Or.inl ⟨h2, hx⟩)⟩
  · rw [command_ok_iff]
    constructor
    · rintro ⟨_, _, h | ⟨h, _⟩ | ⟨_, h⟩⟩
      · omega
      · omega
      · exact h
    · intro hb
      exact ⟨hp, ha, Or.inr (Or.inr ⟨h3, hb⟩)⟩

/-- Witness of C12 at `[position]`, at `[velocity, position]` and at
`[position, position, effort]`. -/
theorem command_size_switch_witness :
    (("position" ∈ ["position"] ∧ "acceleration" ∉ ["position"] ∧
        ["position"].length = 1) ∧
      command_interface_type_combinations ["position"] = .ok ()) ∧
    (("position" ∈ ["velocity", "position"] ∧
        "acceleration" ∉ ["velocity", "position"] ∧
        ["velocity", "position"].length = 2) ∧
      (command_interface_type_combinations ["velocity", "position"] = .ok () ↔
        (("velocity" ∈ ["velocity", "position"] ∧ "effort" ∉ ["velocity", "position"]) ∨
          ("velocity" ∉ ["velocity", "position"] ∧
            "effort" ∈ ["velocity", "position"])))) ∧
    (("position" ∈ ["position", "position", "effort"] ∧
        "acceleration" ∉ ["position", "position", "effort"] ∧
        ["position", "position", "effort"].length = 3) ∧
      (command_interface_type_combinations ["position", "position", "effort"] = .ok () ↔
        ("velocity" ∈ ["position", "position", "effort"] ∧
          "effort" ∈ ["position", "position", "effort"]))) :=
  ⟨⟨⟨by decide, by decide, rfl⟩,
      (command_size_switch ["position"] (by decide) (by decide)).1 rfl⟩,
    ⟨⟨by decide, by decide, rfl⟩,
      (command_size_switch ["velocity", "position"] (by decide) (by decide)).2.1 rfl⟩,
    ⟨⟨by decide, by decide, rfl⟩,
      (command_size_switch ["position", "position", "effort"]
        (by decide) (by decide)).2.2 rfl⟩⟩

/-- C13: a list that holds position and not acceleration and whose length is not 1, 2
or 3 is rejected by the command validator with the reason
"Invalid number of command interfaces. Allowed: 1, 2, or 3.". -/
theorem command_invalid_number (l : List String)
    (hp : "position" ∈ l) (ha : "acceleration" ∉ l)
    (h1 : l.length ≠ 1) (h2 : l.length ≠ 2) (h3 : l.length ≠ 3) :
    command_interface_type_combinations l =
      .error "Invalid number of command interfaces. Allowed: 1, 2, or 3." := by
  rw [command_eq, if_neg (not_not.mpr hp), if_neg ha, if_neg h1, if_neg h2, if_neg h3]

/-- Witness of C13 at the five-entry list
`[velocity, position, effort, foo, position]`. -/
theorem command_invalid_number_witness :
    ("position" ∈ ["velocity", "position", "effort", "foo", "position"] ∧
      "acceleration" ∉ ["velocity", "position", "effort", "foo", "position"] ∧
      ["velocity", "position", "effort", "foo", "position"].length ≠ 1 ∧
      ["velocity", "position", "effort", "foo", "position"].length ≠ 2 ∧
      ["velocity", "position", "effort", "foo", "position"].length ≠ 3) ∧
    command_interface_type_combinations ["velocity", "position", "effort", "foo", "position"] =
      .error "Invalid number of command interfaces. Allowed: 1, 2, or 3." :=
  ⟨⟨by decide, by decide, by decide, by decide, by decide⟩,
    command_invalid_number _ (by decide) (by decide) (by decide) (by decide) (by decide)⟩

/-- Every list the command validator accepts is a reordering of one of the four
allowed lists. -/
theorem command_ok_perm {l : List String}
    (h : command_interface_type_combinations l = .ok ()) :
    l.Perm ["position"] ∨ l.Perm ["position", "velocity"] ∨
      l.Perm ["position", "effort"] ∨ l.Perm ["position", "velocity", "effort"] := by
  obtain ⟨hp, _, h1 | ⟨h2, ⟨hv, _⟩ | ⟨_, he⟩⟩ | ⟨h3, hv, he⟩⟩ := (command_ok_iff l).1 h
  · left
    exact perm_of_subset_of_length_le (by decide) (by simpa using hp) (by simp [h1])
  · right; left
    exact perm_of_subset_of_length_le (by decide) (by simpa using ⟨hp, hv⟩) (by simp [h2])
  · right; right; left
    exact perm_of_subset_of_length_le (by decide) (by simpa using ⟨hp, he⟩) (by simp [h2])
  · right; right; right
    exact perm_of_subset_of_length_le (by decide) (by simpa using ⟨hp, hv, he⟩)
      (by simp [h3])

/-- Every list the state validator accepts is a reordering of
`[position, velocity, effort]`. -/
theorem state_ok_perm {l : List String}
    (h : state_interface_type_combinations l = .ok ()) :
    l.Perm ["position", "velocity", "effort"] := by
  obtain ⟨_, hp, hv, he, hn⟩ := (state_ok_iff l).1 h
  exact perm_of_subset_of_length_le (by decide) (by simpa using ⟨hp, hv, he⟩)
    (by simp [hn])

/-- A reordering of a duplicate-free list over the three names position, velocity,
effort is itself duplicate-free and over these three names. -/
theorem nodup_known_of_perm {l t : List String} (h : l.Perm t) (hd : t.Nodup)
    (hk : ∀ x ∈ t, x = "position" ∨ x = "velocity" ∨ x = "effort") :
    l.Nodup ∧ ∀ x ∈ l, x = "position" ∨ x = "velocity" ∨ x = "effort" :=
  ⟨h.nodup_iff.2 hd, fun x hx => hk x (h.mem_iff.1 hx)⟩

/-- C14: every list accepted by either validator is duplicate-free and holds only the
names position, velocity and effort; so a list with a repeated entry, or with an entry
other than these three strings, is rejected by both validators. -/
theorem accepted_lists_duplicate_free_known_names (l : List String) :
    ((command_interface_type_combinations l = .ok () ∨
        state_interface_type_combinations l = .ok ()) →
      l.Nodup ∧ ∀ x ∈ l, x = "position" ∨ x = "velocity" ∨ x = "effort") ∧
    ((¬ l.Nodup ∨ ∃ x ∈ l, x ≠ "position" ∧ x ≠ "velocity" ∧ x ≠ "effort") →
      (∃ reason, command_interface_type_combinations l = .error reason) ∧
      (∃ reason, state_interface_type_combinations l = .error reason)) := by
  have accepted : (command_interface_type_combinations l = .ok () ∨
        state_interface_type_combinations l = .ok ()) →
      l.Nodup ∧ ∀ x ∈ l, x = "position" ∨ x = "velocity" ∨ x = "effort" := by
    rintro (h | h)
    · rcases command_ok_perm h with hq | hq | hq | hq
      · exact nodup_known_of_perm hq (by decide) (by decide)
      · exact nodup_known_of_perm hq (by decide) (by decide)
      · exact nodup_known_of_perm hq (by decide) (by decide)
      · exact nodup_known_of_perm hq (by decide) (by decide)
    · exact nodup_known_of_perm (state_ok_perm h) (by decide) (by decide)
  refine ⟨accepted, fun hbad => ?_⟩
  have bad : ¬ (l.Nodup ∧ ∀ x ∈ l, x = "position" ∨ x = "velocity" ∨ x = "effort") := by
    rintro ⟨hd, hk⟩
    rcases hbad with hnd | ⟨x, hx, h1, h2, h3⟩
    · exact hnd hd
    · rcases hk x hx with h | h | h
      · exact h1 h
      · exact h2 h
      · exact h3 h
  exact ⟨exists_reason_of_ne_ok fun h => bad (accepted (Or.inl h)),
    exists_reason_of_ne_ok fun h => bad (accepted (Or.inr h))⟩

/-- Witness of C14: the accepted list `[effort, velocity, position]`, the list
`[position, velocity, velocity]` with a repeated entry, and the list
`[position, Velocity, effort]` with a differently-cased name. -/
theorem accepted_lists_duplicate_free_known_names_witness :
    (state_interface_type_combinations ["effort", "velocity", "position"] = .ok () ∧
      ["effort", "velocity", "position"].Nodup ∧
      ∀ x ∈ ["effort", "velocity", "position"],
        x = "position" ∨ x = "velocity" ∨ x = "effort") ∧
    (¬ ["position", "velocity", "velocity"].Nodup ∧
      (∃ reason,
        command_interface_type_combinations ["position", "velocity", "velocity"] =
          .error reason) ∧
      (∃ reason,
        state_interface_type_combinations ["position", "velocity", "velocity"] =
          .error reason)) ∧
    ((∃ x ∈ ["position", "Velocity", "effort"],
        x ≠ "position" ∧ x ≠ "velocity" ∧ x ≠ "effort") ∧
      (∃ reason,
        command_interface_type_combinations ["position", "Velocity", "effort"] =
          .error reason) ∧
      (∃ reason,
        state_interface_type_combinations ["position", "Velocity", "effort"] =
          .error reason)) :=
  ⟨⟨rfl, (accepted_lists_duplicate_free_known_names
      ["effort", "velocity", "position"]).1 (Or.inr rfl)⟩,
    ⟨by decide, (accepted_lists_duplicate_free_known_names
      ["position", "velocity", "velocity"]).2 (Or.inl (by decide))⟩,
    ⟨by decide, (accepted_lists_duplicate_free_known_names
      ["position", "Velocity", "effort"]).2 (Or.inr (by decide))⟩⟩

/-- C15: every list the state validator accepts is accepted by the command validator;
the converse fails, since `[position]` is accepted by the command validator and
rejected by the state validator. -/
theorem state_accepted_subset_command_accepted :
    (∀ l : List String, state_interface_type_combinations l = .ok () →
      command_interface_type_combinations l = .ok ()) ∧
    ¬ (∀ l : List String, command_interface_type_combinations l = .ok () →
      state_interface_type_combinations l = .ok ()) ∧
    (command_interface_type_combinations ["position"] = .ok () ∧
      state_interface_type_combinations ["position"] =
        .error "State interfaces must contain exactly: [position, velocity, effort].") := by
  refine ⟨fun l h => ?_, fun hall => ?_, rfl, rfl⟩
  · rw [command_perm (state_ok_perm h)]
    rfl
  · exact nomatch hall ["position"] rfl

/-- Witness of C15 at `[velocity, effort, position]`. -/
theorem state_accepted_subset_command_accepted_witness :
    state_interface_type_combinations ["velocity", "effort", "position"] = .ok () ∧
    command_interface_type_combinations ["velocity", "effort", "position"] = .ok () :=
  ⟨rfl, state_accepted_subset_command_accepted.1 ["velocity", "effort", "position"] rfl⟩

/-- C16: the count-based reasons are only produced for over-long lists: a list on
which the command validator returns the "Invalid number of command interfaces" reason,
or the state validator the "Invalid number of state interfaces" reason, has at least 4
entries. -/
theorem count_reasons_only_for_long_lists (l : List String) :
    (command_interface_type_combinations l =
        .error "Invalid number of command interfaces. Allowed: 1, 2, or 3." →
      4 ≤ l.length) ∧
    (state_interface_type_combinations l =
        .error "Invalid number of state interfaces. Required exactly 3: [position, velocity, effort]." →
      4 ≤ l.length) := by
  constructor
  · intro h
    rw [command_eq] at h
    by_cases hp : "position" ∈ l
    · have hpos : 0 < l.length := List.length_pos_of_mem hp
      rw [if_neg (not_not.mpr hp)] at h
      by_cases ha : "acceleration" ∈ l
      · rw [if_pos ha] at h
        exact absurd (Except.error.inj h) (by decide)
      · rw [if_neg ha] at h
        by_cases h1 : l.length = 1
        · rw [if_pos h1] at h
          exact nomatch h
        · rw [if_neg h1] at h
          by_cases h2 : l.length = 2
          · rw [if_pos h2] at h
            split_ifs at h
            exact absurd (Except.error.inj h) (by decide)
          · rw [if_neg h2] at h
            by_cases h3 : l.length = 3
            · rw [if_pos h3] at h
              split_ifs at h
              exact absurd (Except.error.inj h) (by decide)
            · omega
    · rw [if_pos hp] at h
      exact absurd (Except.error.inj h) (by decide)
  · intro h
    rw [state_eq] at h
    by_cases ha : "acceleration" ∈ l
    · rw [if_pos ha] at h
      exact absurd (Except.error.inj h) (by decide)
    · rw [if_neg ha] at h
      by_cases hm : "position" ∉ l ∨ "velocity" ∉ l ∨ "effort" ∉ l
      · rw [if_pos hm] at h
        exact absurd (Except.error.inj h) (by decide)
      · rw [if_neg hm] at h
        push_neg at hm
        have h3 : ["position", "velocity", "effort"].length ≤ l.length :=
          length_le_of_nodup_subset (by decide) (by simpa using hm)
        by_cases hn : l.length ≠ 3
        · simp only [List.length_cons, List.length_nil] at h3
          omega
        · rw [if_neg hn] at h
          exact nomatch h

/-- Witness of C16 at `[position, position, position, position]` for the command
validator and `[effort, velocity, position, position]` for the state validator. -/
theorem count_reasons_only_for_long_lists_witness :
    (command_interface_type_combinations ["position", "position", "position", "position"] =
        .error "Invalid number of command interfaces. Allowed: 1, 2, or 3." ∧
      4 ≤ ["position", "position", "position", "position"].length) ∧
    (state_interface_type_combinations ["effort", "velocity", "position", "position"] =
        .error "Invalid number of state interfaces. Required exactly 3: [position, velocity, effort]." ∧
      4 ≤ ["effort", "velocity", "position", "position"].length) :=
  ⟨⟨rfl, (count_reasons_only_for_long_lists
      ["position", "position", "position", "position"]).1 rfl⟩,
    ⟨rfl, (count_reasons_only_for_long_lists
      ["effort", "velocity", "position", "position"]).2 rfl⟩⟩

/-- C17: in the size-2 branch of the command validator the exclusive-or test equals a
plain or: a list of length 2 that holds position cannot hold both velocity and effort,
so `(has_velocity && !has_effort) || (!has_velocity && has_effort)` has the value of
`has_velocity || has_effort`, and the validator with the test replaced returns the
same result as the source function on every list. -/
theorem command_xor_equals_plain_or :
    (∀ l : List String, l.length = 2 → "position" ∈ l →
      ¬ ("velocity" ∈ l ∧ "effort" ∈ l)) ∧
    (∀ l : List String, l.length = 2 → "position" ∈ l →
      ((contains l "velocity" && !contains l "effort") ||
          (!contains l "velocity" && contains l "effort")) =
        (contains l "velocity" || contains l "effort")) ∧
    (∀ l : List String,
      command_interface_type_combinations_plain_or l =
        command_interface_type_combinations l) := by
  have not_both : ∀ l : List String, l.length = 2 → "position" ∈ l →
      ¬ ("velocity" ∈ l ∧ "effort" ∈ l) := by
    rintro l h2 hp ⟨hv, he⟩
    have h3 : ["position", "velocity", "effort"].length ≤ l.length :=
      length_le_of_nodup_subset (by decide) (by simpa using ⟨hp, hv, he⟩)
    simp only [List.length_cons, List.length_nil] at h3
    omega
  have same_test : ∀ l : List String, l.length = 2 → "position" ∈ l →
      ((contains l "velocity" && !contains l "effort") ||
          (!contains l "velocity" && contains l "effort")) =
        (contains l "velocity" || contains l "effort") := by
    intro l h2 hp
    have hnb := not_both l h2 hp
    rw [← contains_iff_mem, ← contains_iff_mem] at hnb
    cases hv : contains l "velocity" <;> cases he : contains l "effort" <;>
      simp [hv, he] at hnb ⊢
  refine ⟨not_both, same_test, fun l => ?_⟩
  by_cases hp : contains l "position" = true
  · by_cases h2 : l.length = 2
    · have ht := same_test l h2 ((contains_iff_mem l "position").1 hp)
      simp only [command_interface_type_combinations_plain_or,
        command_interface_type_combinations, ht]
    · simp [command_interface_type_combinations_plain_or,
        command_interface_type_combinations, h2]
  · simp [command_interface_type_combinations_plain_or,
      command_interface_type_combinations, hp]

/-- Witness of C17 at `[position, velocity]`. -/
theorem command_xor_equals_plain_or_witness :
    (["position", "velocity"].length = 2 ∧ "position" ∈ ["position", "velocity"]) ∧
    ¬ ("velocity" ∈ ["position", "velocity"] ∧ "effort" ∈ ["position", "velocity"]) ∧
    ((contains ["position", "velocity"] "velocity" &&
          !contains ["position", "velocity"] "effort") ||
        (!contains ["position", "velocity"] "velocity" &&
          contains ["position", "velocity"] "effort")) =
      (contains ["position", "velocity"] "velocity" ||
        contains ["position", "velocity"] "effort") :=
  ⟨⟨rfl, by decide⟩,
    command_xor_equals_plain_or.1 ["position", "velocity"] rfl (by decide),
    command_xor_equals_plain_or.2.1 ["position", "velocity"] rfl (by decide)⟩

end joint_trajectory_controller
